import Mathlib

/-!
Verification of the streaming transcription session manager of BetterOMIApp.

Shallow embedding of:
  - `src/backend/utils/textUtils.js` (`calculateSimilarity`, `getBigrams`),
  - the `ClientState` audio/transcription pipeline of the websocket server
    (`src/unnamed/part_010`: `OmiOpusDecoder.decodePacket`, `addOpusPacket`,
    `flushSegment`, `isDuplicateTranscription`, `calculateSimilarity`,
    `levenshteinDistance`, `processBufferedTranscriptions`),
  - the Deepgram live-streaming accumulator and connection supervisor
    (`src/backend/services/deepgramService.js`: `bufferTranscription`,
    `processBufferedTranscription`, `handleConnectionFailure`, `processAudio`).

Texts are modelled as lists of characters (`Str`); JavaScript `Map` entries
keyed by one session are modelled as per-session state records; external I/O
(socket sends, database stores, HTTP posts, the opus codec) is modelled by
explicit outcome parameters and oracles, with the state updates transcribed
from the source.
-/

abbrev Str := List Char

/-- JavaScript-style whitespace test used by `String.prototype.trim`
(restricted to the whitespace characters that occur in this code base). -/
def isSpaceChar (c : Char) : Bool :=
  c = ' ' || c = '\n' || c = '\t' || c = '\r'

/-- `String.prototype.trim`: strip leading and trailing whitespace. -/
def trimStr (s : Str) : Str :=
  ((s.dropWhile isSpaceChar).reverse.dropWhile isSpaceChar).reverse

/-- Character-wise lowercasing, modelling `String.prototype.toLowerCase`. -/
def lowerStr (s : Str) : Str := s.map Char.toLower

/- ===================== src/backend/utils/textUtils.js ===================== -/

/-- The bigram collection pass of `getBigrams` (textUtils.js lines 42-44):
all two-character substrings, in order. -/
def bigramsAux : Str → List Str
  | a :: b :: rest => [a, b] :: bigramsAux (b :: rest)
  | _ => []

/-- `getBigrams` (textUtils.js lines 35-46): the set of character bigrams of a
string; a string of length ≤ 1 yields the one-element set of itself. -/
def getBigrams (s : Str) : Finset Str :=
  if s.length ≤ 1 then { s } else (bigramsAux s).toFinset

/-- `calculateSimilarity` (textUtils.js lines 8-27): Sørensen-Dice coefficient
on character-bigram sets of the lowercased strings, with early returns
0 for a falsy (empty) argument and 1 for equal lowercased strings. -/
def calculateSimilarity (s1 s2 : Str) : ℚ :=
  if s1 = [] ∨ s2 = [] then 0
  else
    let a := lowerStr s1
    let b := lowerStr s2
    if a = b then 1
    else
      ((2 * ((getBigrams a) ∩ (getBigrams b)).card : ℚ)) /
        ((((getBigrams a).card + (getBigrams b).card : ℕ) : ℚ))

/-- Spec-side definition for comparison: the Sørensen-Dice coefficient
`2·|intersection| / (|bigrams(a)| + |bigrams(b)|)` over the character-bigram
sets of the lowercased strings, as the spec words it. -/
def diceSpec (s1 s2 : Str) : ℚ :=
  (2 * ((getBigrams (lowerStr s1)) ∩ (getBigrams (lowerStr s2))).card : ℚ) /
    (((getBigrams (lowerStr s1)).card : ℚ) + ((getBigrams (lowerStr s2)).card : ℚ))

/- ============== src/unnamed/part_010 : ClientState text metric ============= -/

/-- One step of the dynamic-programming row update of `levenshteinDistance`
(part_010 lines 469-477): walking along the second string, `pj1 :: rest`
is the tail of the previous row starting at column `j-1`, and `left` is the
cell just written in the current row. -/
def levRowAux (c : Char) : Str → List ℕ → ℕ → List ℕ
  | [], _, _ => []
  | _ :: _, [], _ => []
  | b :: bs, pj1 :: rest, left =>
      let cell := min (left + 1)
        (min ((rest.headD 0) + 1) (pj1 + (if c = b then 0 else 1)))
      cell :: levRowAux c bs rest cell

/-- The next dynamic-programming row for character `c` of the first string:
the new row starts with `dp[i][0] = dp[i-1][0] + 1` (part_010 line 465). -/
def levRow (c : Char) (t : Str) (prev : List ℕ) : List ℕ :=
  match prev with
  | [] => []
  | p0 :: rest => (p0 + 1) :: levRowAux c t (p0 :: rest) (p0 + 1)

/-- `ClientState.levenshteinDistance` (part_010 lines 457-482): the standard
edit-distance matrix `dp`, built row by row from the first row
`dp[0][j] = j`; the result is the last cell of the last row. -/
def levenshteinDistance (s t : Str) : ℕ :=
  (s.foldl (fun row c => levRow c t row) (List.range (t.length + 1))).getLastD 0

/-- `ClientState.calculateSimilarity` (part_010 lines 443-454):
`1 − levenshtein(a,b) / max(len(a), len(b))` on the lowercased strings,
and 1 when both strings are empty. -/
def levSimilarity (s1 s2 : Str) : ℚ :=
  let a := lowerStr s1
  let b := lowerStr s2
  let d := levenshteinDistance a b
  let m := max a.length b.length
  if m = 0 then 1 else 1 - (d : ℚ) / (m : ℚ)

/-- Spec-side definition for comparison: the edit-distance-based similarity
`1 − levenshtein(a,b)/max(len(a),len(b))` on the normalized (lowercased)
strings, as the spec words it. -/
def levSpecScore (s1 s2 : Str) : ℚ :=
  1 - (levenshteinDistance (lowerStr s1) (lowerStr s2) : ℚ) /
    ((max s1.length s2.length : ℕ) : ℚ)

/- ========= src/backend/services/deepgramService.js : accumulator ========= -/

/-- A finalized transcript fragment: trimmed text and an optional Deepgram
speaker label, as handed to `bufferTranscription` by the message handler
(deepgramService.js lines 481-493). -/
structure Frag where
  text : Str
  speaker : Option ℕ
deriving DecidableEq

/-- The per-session accumulator state of deepgramService.js: the session's
entry in `transcriptionBuffers` (absent = no entry) and its entry in
`currentSpeakers`. -/
structure DGState where
  buffer : Option Str
  currentSpeaker : Option ℕ
deriving DecidableEq

/-- The `Speaker N: ` label prefixed to a turn (deepgramService.js line 575). -/
def speakerTag (s : ℕ) : Str :=
  ("Speaker ".data) ++ (Nat.repr s).data ++ (": ".data)

/-- `bufferTranscription` (deepgramService.js lines 554-587), the pure buffer
update (the immediate `processBufferedTranscription` call on line 590 is
modelled separately): with `buf` the current buffer (`''` when absent),
`isFirstEntry = (buf = [])` and
`isNewSpeaker = (speaker ≠ null ∧ currentSpeaker ≠ speaker ∧ ¬isFirstEntry)`,
the code appends `'\n\n'` for a new speaker or `' '` for a non-first entry,
then a `Speaker N: ` tag when `speaker ≠ null ∧ (isNewSpeaker ∨ isFirstEntry)`,
then the text; `currentSpeakers` is updated only when `speaker ≠ null`.
The four reachable cases of those tests are spelled out below. -/
def bufferAppend (st : DGState) (text : Str) (speaker : Option ℕ) : DGState :=
  let buf := st.buffer.getD []
  match speaker with
  | none =>
      -- isNewSpeaker is false and no tag is added; only the space separator
      -- for a non-first entry applies; currentSpeakers is left unchanged.
      { buffer := some ((if buf = [] then buf else buf ++ (" ".data)) ++ text),
        currentSpeaker := st.currentSpeaker }
  | some s =>
      if buf = [] then
        -- first entry: no separator, tag added (isFirstEntry branch)
        { buffer := some (speakerTag s ++ text), currentSpeaker := some s }
      else if st.currentSpeaker = some s then
        -- same speaker: space separator, no tag
        { buffer := some (buf ++ (" ".data) ++ text), currentSpeaker := some s }
      else
        -- new speaker: paragraph break plus tag
        { buffer := some (buf ++ ("\n\n".data) ++ speakerTag s ++ text),
          currentSpeaker := some s }

/-- Folding a whole arrival-ordered fragment sequence into the accumulator. -/
def bufferFold (frags : List Frag) (st : DGState) : DGState :=
  frags.foldl (fun acc f => bufferAppend acc f.text f.speaker) st

/-- Spec-side definition for comparison: the last-known speaker after a fragment —
updated only when the fragment carries a speaker label. -/
def updateLast (last : Option ℕ) (speaker : Option ℕ) : Option ℕ :=
  match speaker with
  | some s => some s
  | none => last

/-- Spec-side definition for comparison: the rendering of the first accepted fragment —
a speaker label prefix when present, no turn separator. -/
def specFirst (f : Frag) : Str :=
  match f.speaker with
  | none => f.text
  | some s => speakerTag s ++ f.text

/-- Spec-side definition for comparison: the rendering of a non-first accepted fragment —
a paragraph-break turn separator plus a `Speaker N: ` prefix where the
fragment's speaker differs from the last-known speaker, a single space
otherwise. -/
def specChunk (last : Option ℕ) (f : Frag) : Str :=
  match f.speaker with
  | none => (" ".data) ++ f.text
  | some s =>
      if last = some s then (" ".data) ++ f.text
      else ("\n\n".data) ++ speakerTag s ++ f.text

/-- Spec-side definition for comparison: rendering of the non-first fragments, threading
the last-known speaker. -/
def renderRest (last : Option ℕ) : List Frag → Str
  | [] => []
  | f :: rest => specChunk last f ++ renderRest (updateLast last f.speaker) rest

/-- Spec-side definition for comparison: the speaker-annotated concatenation of an
arrival-ordered fragment sequence. -/
def renderSpec : List Frag → Str
  | [] => []
  | f :: rest => specFirst f ++ renderRest (updateLast none f.speaker) rest

/-- Observable outcome of one `processBufferedTranscription` call:
the state afterwards, the text handed to the stream endpoint (if any),
how many `storeTranscription` and `sendTranscriptToStream` calls were made,
and whether the stream handoff actually succeeded. -/
structure FlushResult where
  newState : DGState
  emitted : Option Str
  storeCalls : ℕ
  streamCalls : ℕ
  delivered : Bool
deriving DecidableEq

/-- `processBufferedTranscription` (deepgramService.js lines 599-624) with the
two external calls modelled by outcome flags: an empty or whitespace-only
(or absent) buffer returns immediately; otherwise `storeTranscription` is
called — if it throws, the `catch` only logs, so the buffer entry survives;
if it succeeds, `sendTranscriptToStream` is called exactly once (it catches
its own errors internally, deepgramService.js lines 674-688, so a stream
failure never prevents the `transcriptionBuffers.delete` on line 618). -/
def processBufferedTranscription (st : DGState) (storeOk streamOk : Bool) :
    FlushResult :=
  match st.buffer with
  | none => ⟨st, none, 0, 0, false⟩
  | some b =>
      if trimStr b = [] then ⟨st, none, 0, 0, false⟩
      else if storeOk then
        ⟨{ buffer := none, currentSpeaker := st.currentSpeaker }, some b, 1, 1,
          streamOk⟩
      else ⟨st, none, 1, 0, false⟩

/- ========== src/unnamed/part_010 : ClientState audio pipeline ========== -/

/-- An opaque compressed audio packet (an Opus frame received over the
websocket). -/
abbrev Packet := List ℕ

/-- Silence duration before processing buffered transcriptions
(part_010 line 318: 20 minutes in milliseconds). -/
def SILENCE_DURATION : ℕ := 20 * 60 * 1000

/-- Target sample count per archival segment
(part_010 line 172: `SAMPLE_RATE * 5`, five seconds at 16 kHz). -/
def TARGET_SAMPLES : ℕ := 16000 * 5

/-- The per-client mutable state of `ClientState` (part_010 lines 296-322).
PCM buffers hold 16-bit samples, so a decoded `Buffer` is modelled as its
list of samples and the byte-length division `pcm.length / SAMPLE_WIDTH`
(line 349) becomes the sample-list length. `processingTimeout` is modelled
as the absolute deadline of the pending timer. -/
structure ClientSt where
  pcmFrames : List (List ℤ)
  saveFrames : List (List ℤ)
  sampleCount : ℕ
  segmentIndex : ℕ
  transcriptionBuffer : List Str
  lastTranscriptionAdded : Str
  recentTranscripts : List Str
  lastActivityTime : ℕ
  timeoutDeadline : Option ℕ
  segmentsProcessed : ℕ
deriving DecidableEq

/-- The fresh state built by the `ClientState` constructor. -/
def ClientSt.init (now : ℕ) : ClientSt :=
  ⟨[], [], 0, 0, [], [], [], now, none, 0⟩

/-- `ClientState.isDuplicateTranscription` (part_010 lines 422-440): an empty
transcript is a duplicate; otherwise the transcript is a duplicate when its
similarity to the last added transcript (when one exists) or to any entry of
the bounded recent-transcript window exceeds 0.85. -/
def isDuplicateTranscription (lastAdded : Str) (recent : List Str) (t : Str) :
    Bool :=
  if t = [] then true
  else if lastAdded ≠ [] ∧ levSimilarity t lastAdded > 0.85 then true
  else recent.any (fun r => decide (levSimilarity t r > (0.85 : ℚ)))

/-- The transcript-acceptance block of `ClientState.flushSegment`
(part_010 lines 382-404): a non-empty transcript bumps `segmentsProcessed`;
if it is not a duplicate it is appended to `transcriptionBuffer`, recorded as
`lastTranscriptionAdded`, and pushed onto `recentTranscripts`, evicting the
oldest entry beyond `maxRecentTranscripts = 10` (the websocket echo to the
client is external). -/
def acceptTranscript (st : ClientSt) (t : Str) : ClientSt :=
  if t ≠ [] ∧ trimStr t ≠ [] then
    let st := { st with segmentsProcessed := st.segmentsProcessed + 1 }
    if isDuplicateTranscription st.lastTranscriptionAdded st.recentTranscripts t
    then st
    else
      { st with
        transcriptionBuffer := st.transcriptionBuffer ++ [t],
        lastTranscriptionAdded := t,
        recentTranscripts :=
          let r := st.recentTranscripts ++ [t]
          if r.length > 10 then r.drop 1 else r }
  else st

/-- `ClientState.flushSegment` (part_010 lines 356-419) with the Deepgram
batch transcription modelled by the `transcribe` oracle (its internal retry
returns `''` after repeated failure, part_010 lines 560-567, and the
surrounding `catch` also reaches the reset, so a failed segment behaves like
an empty transcript): nothing happens on an empty `saveFrames`; otherwise the
transcript of the accumulated frames goes through transcript acceptance and
the segment buffers reset — `saveFrames := []`, `sampleCount := 0`,
`segmentIndex := segmentIndex + 1`. -/
def flushSegment (transcribe : List (List ℤ) → Str) (st : ClientSt) :
    ClientSt :=
  if st.saveFrames = [] then st
  else
    let st := acceptTranscript st (transcribe st.saveFrames)
    { st with saveFrames := [], sampleCount := 0,
              segmentIndex := st.segmentIndex + 1 }

/-- `ClientState.addOpusPacket` (part_010 lines 324-354) with the stateful
Opus codec modelled by the `decode` oracle (`decodePacket`, part_010 lines
260-269, returns `null` on a decode error): a failed decode drops the packet
and returns with every field untouched; a decoded packet refreshes
`lastActivityTime`, re-arms the silence-processing timer, appends the PCM to
both frame lists, adds its sample count, and flushes the segment when the
running count reaches `TARGET_SAMPLES`. -/
def addOpusPacket (decode : Packet → Option (List ℤ))
    (transcribe : List (List ℤ) → Str) (now : ℕ) (st : ClientSt)
    (packet : Packet) : ClientSt :=
  match decode packet with
  | none => st
  | some pcm =>
      let st := { st with
        lastActivityTime := now,
        timeoutDeadline := some (now + SILENCE_DURATION),
        pcmFrames := st.pcmFrames ++ [pcm],
        saveFrames := st.saveFrames ++ [pcm],
        sampleCount := st.sampleCount + pcm.length }
      if st.sampleCount ≥ TARGET_SAMPLES then flushSegment transcribe st
      else st

/-- `ClientState.processBufferedTranscriptions` (part_010 lines 484-528) with
the downstream pipeline (`createTranscription`, LLM analysis, brain, action
items, memories) lumped into one `ok` outcome: an empty buffer returns
immediately with no downstream call; otherwise the space-joined text is
handed downstream (one `createTranscription` call) and the buffer is cleared
unless the pipeline threw, in which case the `catch` only logs. Result:
(state, text handed downstream, number of `createTranscription` calls). -/
def processClientBuffered (st : ClientSt) (ok : Bool) :
    ClientSt × Option Str × ℕ :=
  if st.transcriptionBuffer = [] then (st, none, 0)
  else
    let fullText := (st.transcriptionBuffer.intersperse (" ".data)).flatten
    if ok then ({ st with transcriptionBuffer := [] }, some fullText, 1)
    else (st, some fullText, 1)

/- ===== src/backend/services/deepgramService.js : connection supervisor ===== -/

/-- Maximum reconnection attempts (deepgramService.js line 53). -/
def MAX_RECONNECT_ATTEMPTS : ℕ := 10

/-- The per-session connection-supervisor state of deepgramService.js:
presence of the session's entries in `activeConnections` and
`connectionStatus`, presence of its keep-alive / heartbeat intervals and
auto-close timeout, its `reconnectAttempts` counter, its accumulator state,
how many `processBufferedTranscription` calls have fired for it, whether the
terminal max-attempts branch has run, and whether a retry
`handleConnectionFailure` is scheduled (the `setTimeout` on line 417). -/
structure SessState where
  reconnectAttempts : ℕ
  connEntry : Bool
  statusEntry : Bool
  keepAlive : Bool
  heartbeat : Bool
  autoClose : Bool
  dg : DGState
  flushCalls : ℕ
  terminated : Bool
  reconnectScheduled : Bool
deriving DecidableEq

/-- `handleConnectionFailure` (deepgramService.js lines 317-419), one
invocation, with the reconnection attempt's outcome and the flush's external
outcomes as parameters. The invocation consumes any pending retry schedule;
if a connection entry exists its socket is terminated and its keep-alive,
heartbeat and auto-close timers are cleared (lines 327-350); the attempt
counter is incremented (line 353). If the counter now exceeds
`MAX_RECONNECT_ATTEMPTS`, the terminal branch (lines 358-386) deletes the
connection and status entries, clears all timers again, calls
`processBufferedTranscription` only when `transcriptionBuffers.has(sessionId)`
(lines 381-383), and returns without scheduling anything. Otherwise a
reconnect is attempted after backoff: on success the connection entry,
status, keep-alive, heartbeat and auto-close timers are re-established
(lines 398-410); on failure another `handleConnectionFailure` is scheduled
(line 417). -/
def handleConnectionFailure (st : SessState)
    (reconnectOk storeOk streamOk : Bool) : SessState :=
  let st := { st with reconnectScheduled := false }
  let st :=
    if st.connEntry then
      { st with keepAlive := false, heartbeat := false, autoClose := false }
    else st
  let st := { st with reconnectAttempts := st.reconnectAttempts + 1 }
  if st.reconnectAttempts > MAX_RECONNECT_ATTEMPTS then
    let st := { st with
      connEntry := false, statusEntry := false,
      keepAlive := false, heartbeat := false, autoClose := false,
      terminated := true }
    if st.dg.buffer.isSome then
      { st with
        dg := (processBufferedTranscription st.dg storeOk streamOk).newState,
        flushCalls := st.flushCalls + 1 }
    else st
  else if reconnectOk then
    { st with
      connEntry := true, statusEntry := true,
      keepAlive := true, heartbeat := true, autoClose := true }
  else
    { st with reconnectScheduled := true }

/-- `n` consecutive connection failures: each failure invokes
`handleConnectionFailure` once, and every reconnection attempt fails. -/
def applyFailures (storeOk streamOk : Bool) : SessState → ℕ → SessState
  | st, 0 => st
  | st, n + 1 =>
      applyFailures storeOk streamOk
        (handleConnectionFailure st false storeOk streamOk) n

/-- A freshly connected session: entries and timers present, attempt counter
zero, accumulator state `dg`, no flush fired yet. -/
def freshSess (dg : DGState) : SessState :=
  ⟨0, true, true, true, true, true, dg, 0, false, false⟩

/- ======= src/backend/services/deepgramService.js : processAudio send ======= -/

/-- Outcome of the first `wsConnection.send(decodedAudio)` inside
`processAudio` (deepgramService.js line 136): success, a throw whose message
marks a closed/broken socket (`'not open'` / `'CLOSED'`, lines 141-142), or
any other throw. -/
inductive SendOutcome where
  | ok : SendOutcome
  | closedErr : SendOutcome
  | otherErr : SendOutcome
deriving DecidableEq

/-- Observable outcome of the send section of `processAudio`:
the payloads handed to a socket `send`, in order, and whether an error
propagated to the caller. -/
structure SendResult (α : Type) where
  sends : List α
  raised : Bool

/-- The send-and-retry section of `processAudio` (deepgramService.js lines
134-155): a successful send is done; a closed/broken-socket throw triggers
`handleConnectionFailure` and, only when the session still has a connection
entry afterwards (`activeConnections.get(sessionId)` truthy — reconnection
succeeded), the same payload is sent once more; any other throw is
rethrown with no retry. -/
def processAudioSend {α : Type} (payload : α) (first : SendOutcome)
    (reconnectOk : Bool) : SendResult α :=
  match first with
  | SendOutcome.ok => ⟨[payload], false⟩
  | SendOutcome.closedErr =>
      if reconnectOk then ⟨[payload, payload], false⟩ else ⟨[payload], false⟩
  | SendOutcome.otherErr => ⟨[payload], true⟩

/- ============================ Helper lemmas ============================ -/

lemma getBigrams_card_pos (s : Str) : 0 < (getBigrams s).card := by
  unfold getBigrams
  split
  · simp
  · rename_i h
    push_neg at h
    obtain ⟨a, b, rest, rfl⟩ : ∃ a b rest, s = a :: b :: rest := by
      match s with
      | [] => simp at h
      | [a] => simp at h
      | a :: b :: rest => exact ⟨a, b, rest, rfl⟩
    refine Finset.card_pos.mpr ⟨[a, b], ?_⟩
    simp [bigramsAux]

lemma trimStr_nil : trimStr [] = [] := rfl

/- =============================== Claims =============================== -/

/-- C6: for non-empty strings, `calculateSimilarity` equals the Sørensen-Dice
coefficient over the character-bigram sets of the lowercased strings and lies
in [0,1]; a single-character string's bigram set is the one-element set of
itself; and the alternative deployed metric (`ClientState.calculateSimilarity`)
equals `1 − levenshtein(a,b)/max(len(a),len(b))`. -/
theorem c6_similarity_metrics (a b : Str) (ha : a ≠ []) (hb : b ≠ []) :
    calculateSimilarity a b = diceSpec a b
    ∧ 0 ≤ calculateSimilarity a b ∧ calculateSimilarity a b ≤ 1
    ∧ (∀ c : Char, getBigrams [c] = { [c] })
    ∧ levSimilarity a b = levSpecScore a b := by
  have hcard : ∀ s1 s2 : Str,
      2 * (((getBigrams s1) ∩ (getBigrams s2)).card : ℚ)
        ≤ ((getBigrams s1).card : ℚ) + ((getBigrams s2).card : ℚ) := by
    intro s1 s2
    have h1 : ((getBigrams s1) ∩ (getBigrams s2)).card ≤ (getBigrams s1).card :=
      Finset.card_le_card Finset.inter_subset_left
    have h2 : ((getBigrams s1) ∩ (getBigrams s2)).card ≤ (getBigrams s2).card :=
      Finset.card_le_card Finset.inter_subset_right
    have := Nat.add_le_add h1 h2
    rw [two_mul]
    exact_mod_cast this
  have hdenom : ∀ s1 s2 : Str,
      (0 : ℚ) < ((getBigrams s1).card : ℚ) + ((getBigrams s2).card : ℚ) := by
    intro s1 s2
    have := getBigrams_card_pos s1
    positivity
  have heq : calculateSimilarity a b = diceSpec a b := by
    simp only [calculateSimilarity, diceSpec]
    rw [if_neg (by simp [ha, hb])]
    by_cases hab : lowerStr a = lowerStr b
    · rw [if_pos hab, hab, Finset.inter_self]
      have hc : (0 : ℚ) < ((getBigrams (lowerStr b)).card : ℚ) := by
        exact_mod_cast getBigrams_card_pos (lowerStr b)
      field_simp
      ring
    · rw [if_neg hab]
      push_cast
      ring
  refine ⟨heq, ?_, ?_, ?_, ?_⟩
  · rw [heq]
    unfold diceSpec
    positivity
  · rw [heq]
    unfold diceSpec
    rw [div_le_one (hdenom _ _)]
    exact hcard _ _
  · intro c
    rfl
  · have hm : ¬ (max a.length b.length = 0) := by
      rw [Nat.max_eq_zero_iff]
      rintro ⟨h1, h2⟩
      exact ha (List.length_eq_zero.mp h1)
    simp only [levSimilarity, levSpecScore, lowerStr, List.length_map]
    rw [if_neg hm]

/-- C6 witness at concrete non-empty strings. -/
theorem c6_witness :
    ((("ab".data : Str) ≠ []) ∧ (("bc".data : Str) ≠ []))
    ∧ (calculateSimilarity ("ab".data) ("bc".data)
          = diceSpec ("ab".data) ("bc".data)
        ∧ 0 ≤ calculateSimilarity ("ab".data) ("bc".data)
        ∧ calculateSimilarity ("ab".data) ("bc".data) ≤ 1
        ∧ (∀ c : Char, getBigrams [c] = { [c] })
        ∧ levSimilarity ("ab".data) ("bc".data)
            = levSpecScore ("ab".data) ("bc".data)) :=
  ⟨⟨by decide, by decide⟩, c6_similarity_metrics _ _ (by decide) (by decide)⟩

/-- C9: flushing with an empty (or whitespace-only) transcription buffer is a
no-op, in both accumulators: no downstream call is made (zero store and
stream calls / zero `createTranscription` calls), nothing is emitted, and
the session state is returned unchanged. -/
theorem c9_empty_flush_noop (st : DGState) (storeOk streamOk : Bool)
    (hst : trimStr (st.buffer.getD []) = [])
    (cst : ClientSt) (ok : Bool) (hc : cst.transcriptionBuffer = []) :
    processBufferedTranscription st storeOk streamOk = ⟨st, none, 0, 0, false⟩
    ∧ processClientBuffered cst ok = (cst, none, 0) := by
  constructor
  · obtain ⟨buf, cs⟩ := st
    cases buf with
    | none => rfl
    | some b =>
        simp only [Option.getD_some] at hst
        simp [processBufferedTranscription, hst]
  · simp [processClientBuffered, hc]

/-- C9 witness: a whitespace-only deepgram buffer and an empty client buffer. -/
theorem c9_witness :
    (trimStr ((DGState.mk (some (" ".data)) none).buffer.getD []) = []
      ∧ (ClientSt.init 0).transcriptionBuffer = [])
    ∧ (processBufferedTranscription ⟨some (" ".data), none⟩ true true
          = ⟨⟨some (" ".data), none⟩, none, 0, 0, false⟩
        ∧ processClientBuffered (ClientSt.init 0) true
            = (ClientSt.init 0, none, 0)) :=
  ⟨⟨by decide, by decide⟩,
    c9_empty_flush_noop ⟨some (" ".data), none⟩ true true (by decide)
      (ClientSt.init 0) true (by decide)⟩

/-- C10: a fragment with an absent speaker label is appended with a single
space (or as-is into an empty buffer), with no turn separator and no
`Speaker N: ` prefix, and the last-known speaker is left unchanged; a
following fragment bearing the previously recorded speaker's label is then
joined with a single space as the same speaker — no separator, no prefix. -/
theorem c10_null_speaker (st : DGState) (t : Str) (ht : t ≠ []) :
    (bufferAppend st t none).currentSpeaker = st.currentSpeaker
    ∧ (bufferAppend st t none).buffer
        = some ((if st.buffer.getD [] = [] then []
                  else st.buffer.getD [] ++ (" ".data)) ++ t)
    ∧ ∀ (s : ℕ) (t2 : Str), st.currentSpeaker = some s →
        bufferAppend (bufferAppend st t none) t2 (some s)
          = ⟨some (((bufferAppend st t none).buffer.getD []) ++ (" ".data) ++ t2),
              some s⟩ := by
  obtain ⟨buf, cs⟩ := st
  refine ⟨rfl, ?_, ?_⟩
  · cases buf with
    | none => rfl
    | some b => by_cases hbe : b = [] <;> simp [bufferAppend, hbe]
  · intro s t2 hcs
    subst hcs
    have hb1 : (bufferAppend ⟨buf, some s⟩ t none).buffer.getD [] ≠ [] := by
      cases buf with
      | none => simpa [bufferAppend] using ht
      | some b =>
          by_cases hbe : b = [] <;>
            simp [bufferAppend, hbe, ht, List.append_eq_nil]
    have hcs1 : (bufferAppend ⟨buf, some s⟩ t none).currentSpeaker = some s := rfl
    rcases hcase : bufferAppend ⟨buf, some s⟩ t none with ⟨buf1, cs1⟩
    rw [hcase] at hb1 hcs1
    simp only at hb1 hcs1
    subst hcs1
    cases buf1 with
    | none => simp at hb1
    | some b1 =>
        simp only [Option.getD_some] at hb1
        simp [bufferAppend, hb1]

/-- C10 witness: a null-speaker fragment into a session whose last recorded
speaker is 0, followed by a speaker-0 fragment. -/
theorem c10_witness :
    (("hi".data : Str) ≠ [])
    ∧ ((bufferAppend ⟨some ("a".data), some 0⟩ ("hi".data) none).currentSpeaker
          = some 0
        ∧ (bufferAppend ⟨some ("a".data), some 0⟩ ("hi".data) none).buffer
            = some ((if (DGState.mk (some ("a".data)) (some 0)).buffer.getD [] = []
                      then []
                      else (DGState.mk (some ("a".data)) (some 0)).buffer.getD []
                        ++ (" ".data)) ++ ("hi".data))
        ∧ ∀ (s : ℕ) (t2 : Str),
            (DGState.mk (some ("a".data)) (some 0)).currentSpeaker = some s →
            bufferAppend
                (bufferAppend ⟨some ("a".data), some 0⟩ ("hi".data) none) t2
                (some s)
              = ⟨some (((bufferAppend ⟨some ("a".data), some 0⟩ ("hi".data)
                    none).buffer.getD []) ++ (" ".data) ++ t2), some s⟩) :=
  ⟨by decide, c10_null_speaker ⟨some ("a".data), some 0⟩ ("hi".data) (by decide)⟩

/-- C4: a send failure on a closed/broken socket triggers reconnection and,
when reconnection succeeds, the same audio payload is retried exactly once
(two `send` calls of the identical payload, no error to the caller); in
every case the payload is sent at least once and retried at most once, and
every `send` carries the same payload. -/
theorem c4_send_retry {α : Type} (p : α) (first : SendOutcome) (rOk : Bool)
    (h1 : first = SendOutcome.closedErr) (h2 : rOk = true) :
    (processAudioSend p first rOk).sends = [p, p]
    ∧ (processAudioSend p first rOk).raised = false
    ∧ (∀ (f : SendOutcome) (r : Bool),
        1 ≤ (processAudioSend p f r).sends.length
        ∧ (processAudioSend p f r).sends.length ≤ 2
        ∧ ∀ q ∈ (processAudioSend p f r).sends, q = p) := by
  subst h1 h2
  refine ⟨rfl, rfl, ?_⟩
  intro f r
  cases f <;> cases r <;> simp [processAudioSend]

/-- C4 witness: a closed-socket send failure with successful reconnection. -/
theorem c4_witness :
    ((SendOutcome.closedErr = SendOutcome.closedErr) ∧ (true = true))
    ∧ ((processAudioSend (0 : ℕ) SendOutcome.closedErr true).sends = [0, 0]
        ∧ (processAudioSend (0 : ℕ) SendOutcome.closedErr true).raised = false
        ∧ (∀ (f : SendOutcome) (r : Bool),
            1 ≤ (processAudioSend (0 : ℕ) f r).sends.length
            ∧ (processAudioSend (0 : ℕ) f r).sends.length ≤ 2
            ∧ ∀ q ∈ (processAudioSend (0 : ℕ) f r).sends, q = 0)) :=
  ⟨⟨rfl, rfl⟩, c4_send_retry 0 SendOutcome.closedErr true rfl rfl⟩

/-- C5 counterexample: the claim "after the flush completes the session's
transcription buffer is empty" fails when the database-store step throws —
flushing the non-empty buffer `"hello"` with a failing store leaves the
buffer entry in place. -/
theorem c5_counterexample :
    (processBufferedTranscription ⟨some ("hello".data), none⟩ false
        true).newState.buffer ≠ none := by
  decide

/-- C5 (amended): a flush of a non-empty buffer clears the buffer whenever
the database store succeeds, and a downstream stream-handoff failure is
swallowed — the text is still emitted exactly once, removed from the buffer,
and neither retried nor re-buffered; if the database store throws, the
buffer entry survives unchanged and no stream call is made. -/
theorem c5_flush_handoff (st : DGState) (b : Str) (hb : st.buffer = some b)
    (hne : trimStr b ≠ []) :
    (∀ streamOk : Bool,
      (processBufferedTranscription st true streamOk).newState.buffer = none
      ∧ (processBufferedTranscription st true streamOk).emitted = some b
      ∧ (processBufferedTranscription st true streamOk).streamCalls = 1)
    ∧ (∀ streamOk : Bool,
        (processBufferedTranscription st false streamOk).newState = st
        ∧ (processBufferedTranscription st false streamOk).streamCalls = 0) := by
  obtain ⟨buf, cs⟩ := st
  simp only [DGState.mk.injEq] at hb
  subst hb
  constructor
  · intro streamOk
    refine ⟨?_, ?_, ?_⟩ <;> simp [processBufferedTranscription, hne]
  · intro streamOk
    refine ⟨?_, ?_⟩ <;> simp [processBufferedTranscription, hne]

/-- C5 witness: flushing the non-empty buffer `"hello"`. -/
theorem c5_witness :
    ((DGState.mk (some ("hello".data)) none).buffer = some ("hello".data)
      ∧ trimStr ("hello".data) ≠ [])
    ∧ ((∀ streamOk : Bool,
          (processBufferedTranscription ⟨some ("hello".data), none⟩ true
              streamOk).newState.buffer = none
          ∧ (processBufferedTranscription ⟨some ("hello".data), none⟩ true
              streamOk).emitted = some ("hello".data)
          ∧ (processBufferedTranscription ⟨some ("hello".data), none⟩ true
              streamOk).streamCalls = 1)
        ∧ (∀ streamOk : Bool,
            (processBufferedTranscription ⟨some ("hello".data), none⟩ false
                streamOk).newState = ⟨some ("hello".data), none⟩
            ∧ (processBufferedTranscription ⟨some ("hello".data), none⟩ false
                streamOk).streamCalls = 0)) :=
  ⟨⟨rfl, by decide⟩,
    c5_flush_handoff ⟨some ("hello".data), none⟩ ("hello".data) rfl (by decide)⟩

/-- C7: a packet whose decode fails is dropped without raising: the client
state is returned entirely unchanged (no PCM appended, sample counter,
segment index, transcription buffers and timers untouched), and a following
valid packet is processed exactly as if the bad packet had never arrived. -/
theorem c7_decode_failure_drops (decode : Packet → Option (List ℤ))
    (transcribe : List (List ℤ) → Str) (now : ℕ) (st : ClientSt) (p : Packet)
    (h : decode p = none) :
    addOpusPacket decode transcribe now st p = st
    ∧ ∀ (now2 : ℕ) (p2 : Packet),
        addOpusPacket decode transcribe now2
            (addOpusPacket decode transcribe now st p) p2
          = addOpusPacket decode transcribe now2 st p2 := by
  have h1 : addOpusPacket decode transcribe now st p = st := by
    unfold addOpusPacket
    rw [h]
  exact ⟨h1, fun now2 p2 => by rw [h1]⟩

/-- C7 witness: a decoder that rejects the packet leaves a fresh client
state unchanged. -/
theorem c7_witness :
    ((fun _ : Packet => (none : Option (List ℤ))) [7] = none)
    ∧ (addOpusPacket (fun _ => none) (fun _ => []) 5 (ClientSt.init 0) [7]
          = ClientSt.init 0
        ∧ ∀ (now2 : ℕ) (p2 : Packet),
            addOpusPacket (fun _ => none) (fun _ => []) now2
                (addOpusPacket (fun _ => none) (fun _ => []) 5
                  (ClientSt.init 0) [7]) p2
              = addOpusPacket (fun _ => none) (fun _ => []) now2
                  (ClientSt.init 0) p2) :=
  ⟨rfl, c7_decode_failure_drops (fun _ => none) (fun _ => []) 5
    (ClientSt.init 0) [7] rfl⟩

lemma acceptTranscript_segment_fields (st : ClientSt) (t : Str) :
    (acceptTranscript st t).saveFrames = st.saveFrames
    ∧ (acceptTranscript st t).sampleCount = st.sampleCount
    ∧ (acceptTranscript st t).segmentIndex = st.segmentIndex := by
  unfold acceptTranscript
  by_cases h1 : t ≠ [] ∧ trimStr t ≠ []
  · rw [if_pos h1]
    by_cases h2 : isDuplicateTranscription st.lastTranscriptionAdded
        st.recentTranscripts t = true
    · rw [if_pos h2]
      exact ⟨rfl, rfl, rfl⟩
    · rw [if_neg h2]
      exact ⟨rfl, rfl, rfl⟩
  · rw [if_neg h1]
    exact ⟨rfl, rfl, rfl⟩

lemma flushSegment_segmentIndex_le (transcribe : List (List ℤ) → Str)
    (st : ClientSt) :
    st.segmentIndex ≤ (flushSegment transcribe st).segmentIndex := by
  unfold flushSegment
  by_cases h : st.saveFrames = []
  · rw [if_pos h]
  · rw [if_neg h]
    simp only
    rw [(acceptTranscript_segment_fields st _).2.2]
    exact Nat.le_succ _

lemma addOpusPacket_segmentIndex_le (decode : Packet → Option (List ℤ))
    (transcribe : List (List ℤ) → Str) (now : ℕ) (st : ClientSt) (p : Packet) :
    st.segmentIndex ≤ (addOpusPacket decode transcribe now st p).segmentIndex := by
  unfold addOpusPacket
  cases decode p with
  | none => exact le_refl _
  | some pcm =>
      simp only
      split_ifs
      · refine le_trans ?_ (flushSegment_segmentIndex_le transcribe _)
        exact le_of_eq rfl
      · exact le_refl _

/-- C8: a decoded packet emits an archival segment exactly when the running
sample count reaches `TARGET_SAMPLES = 80000` (five seconds at 16 kHz):
below the target the frames and counter just accumulate and the segment
index is unchanged; at or above it the frame buffer and sample counter reset
to zero and the segment index increments by exactly one; and over any packet
sequence the segment index is monotonically non-decreasing. -/
theorem c8_segment_emission (decode : Packet → Option (List ℤ))
    (transcribe : List (List ℤ) → Str) (now : ℕ) (st : ClientSt) (p : Packet)
    (pcm : List ℤ) (h : decode p = some pcm) :
    TARGET_SAMPLES = 80000
    ∧ (st.sampleCount + pcm.length < TARGET_SAMPLES →
        (addOpusPacket decode transcribe now st p).saveFrames
            = st.saveFrames ++ [pcm]
        ∧ (addOpusPacket decode transcribe now st p).sampleCount
            = st.sampleCount + pcm.length
        ∧ (addOpusPacket decode transcribe now st p).segmentIndex
            = st.segmentIndex)
    ∧ (TARGET_SAMPLES ≤ st.sampleCount + pcm.length →
        (addOpusPacket decode transcribe now st p).saveFrames = []
        ∧ (addOpusPacket decode transcribe now st p).sampleCount = 0
        ∧ (addOpusPacket decode transcribe now st p).segmentIndex
            = st.segmentIndex + 1)
    ∧ ∀ packets : List Packet,
        st.segmentIndex
          ≤ (packets.foldl (addOpusPacket decode transcribe now) st).segmentIndex := by
  refine ⟨rfl, ?_, ?_, ?_⟩
  · intro hlt
    unfold addOpusPacket
    rw [h]
    simp only
    rw [if_neg (by simp only [not_le]; exact hlt)]
    exact ⟨rfl, rfl, rfl⟩
  · intro hge
    unfold addOpusPacket
    rw [h]
    simp only
    rw [if_pos hge]
    unfold flushSegment
    rw [if_neg (by simp)]
    simp only
    refine ⟨trivial, trivial, ?_⟩
    rw [(acceptTranscript_segment_fields _ _).2.2]
  · intro packets
    induction packets generalizing st with
    | nil => exact le_refl _
    | cons q rest ih =>
        calc st.segmentIndex
            ≤ (addOpusPacket decode transcribe now st q).segmentIndex :=
              addOpusPacket_segmentIndex_le decode transcribe now st q
          _ ≤ _ := ih _

/-- C8 witness: a fresh state receiving a two-sample packet. -/
theorem c8_witness :
    ((fun _ : Packet => some ([0, 0] : List ℤ)) [1] = some ([0, 0] : List ℤ))
    ∧ (TARGET_SAMPLES = 80000
        ∧ ((ClientSt.init 0).sampleCount + ([0, 0] : List ℤ).length
              < TARGET_SAMPLES →
            (addOpusPacket (fun _ => some [0, 0]) (fun _ => []) 0
                (ClientSt.init 0) [1]).saveFrames
                = (ClientSt.init 0).saveFrames ++ [[0, 0]]
            ∧ (addOpusPacket (fun _ => some [0, 0]) (fun _ => []) 0
                (ClientSt.init 0) [1]).sampleCount
                = (ClientSt.init 0).sampleCount + ([0, 0] : List ℤ).length
            ∧ (addOpusPacket (fun _ => some [0, 0]) (fun _ => []) 0
                (ClientSt.init 0) [1]).segmentIndex
                = (ClientSt.init 0).segmentIndex)
        ∧ (TARGET_SAMPLES ≤ (ClientSt.init 0).sampleCount
              + ([0, 0] : List ℤ).length →
            (addOpusPacket (fun _ => some [0, 0]) (fun _ => []) 0
                (ClientSt.init 0) [1]).saveFrames = []
            ∧ (addOpusPacket (fun _ => some [0, 0]) (fun _ => []) 0
                (ClientSt.init 0) [1]).sampleCount = 0
            ∧ (addOpusPacket (fun _ => some [0, 0]) (fun _ => []) 0
                (ClientSt.init 0) [1]).segmentIndex
                = (ClientSt.init 0).segmentIndex + 1)
        ∧ ∀ packets : List Packet,
            (ClientSt.init 0).segmentIndex
              ≤ (packets.foldl
                  (addOpusPacket (fun _ => some [0, 0]) (fun _ => []) 0)
                  (ClientSt.init 0)).segmentIndex) :=
  ⟨rfl, c8_segment_emission (fun _ => some [0, 0]) (fun _ => []) 0
    (ClientSt.init 0) [1] [0, 0] rfl⟩

/-- C3 counterexample: with nothing buffered, the eleventh consecutive
failure terminates the session but fires zero flush calls — "exactly one
flush call fires with whatever text was buffered (possibly empty)" is false. -/
theorem c3_counterexample :
    (applyFailures true true (freshSess ⟨none, none⟩) 11).terminated = true
    ∧ (applyFailures true true (freshSess ⟨none, none⟩) 11).flushCalls = 0 := by
  decide

lemma handleFail_nonterminal (dg : DGState) (a b : Bool) (k : ℕ)
    (hk : k + 1 ≤ 10) :
    handleConnectionFailure
        ⟨k, true, true, false, false, false, dg, 0, false, true⟩ false a b
      = ⟨k + 1, true, true, false, false, false, dg, 0, false, true⟩ := by
  have hnt : (10 < k + 1) = False := eq_false (by omega)
  simp [handleConnectionFailure, MAX_RECONNECT_ATTEMPTS, hnt]

lemma applyFailures_mid (dg : DGState) (a b : Bool) :
    ∀ n k : ℕ, 1 ≤ k → k + n ≤ 10 →
    applyFailures a b ⟨k, true, true, false, false, false, dg, 0, false, true⟩ n
      = ⟨k + n, true, true, false, false, false, dg, 0, false, true⟩ := by
  intro n
  induction n with
  | zero => intro k hk h; rfl
  | succ m ih =>
      intro k hk h
      show applyFailures a b
          (handleConnectionFailure
            ⟨k, true, true, false, false, false, dg, 0, false, true⟩ false a b) m
        = _
      rw [handleFail_nonterminal dg a b k (by omega)]
      rw [ih (k + 1) (by omega) (by omega)]
      congr 1
      omega

lemma applyFailures_succ (a b : Bool) (st : SessState) (n : ℕ) :
    applyFailures a b st (n + 1)
      = applyFailures a b (handleConnectionFailure st false a b) n := rfl

lemma applyFailures_last (a b : Bool) (n : ℕ) :
    ∀ st : SessState,
      applyFailures a b st (n + 1)
        = handleConnectionFailure (applyFailures a b st n) false a b := by
  induction n with
  | zero => intro st; rfl
  | succ m ih =>
      intro st
      show applyFailures a b (handleConnectionFailure st false a b) (m + 1) = _
      rw [ih]
      rfl

/-- C3 (amended): after exactly `MAX_RECONNECT_ATTEMPTS + 1 = 11` consecutive
connection failures, a fresh session has not yet terminated at failure 10 but
is terminated at failure 11 — its connection and status entries, keep-alive
and heartbeat intervals and auto-close timeout are all released, no further
reconnect is scheduled, and exactly one flush call fires iff any text was
buffered (none fires when the buffer is absent). -/
theorem c3_budget_exhaustion (dg : DGState) (storeOk streamOk : Bool) :
    (applyFailures storeOk streamOk (freshSess dg) 10).terminated = false
    ∧ (applyFailures storeOk streamOk (freshSess dg) 10).reconnectScheduled = true
    ∧ (applyFailures storeOk streamOk (freshSess dg) 11).terminated = true
    ∧ (applyFailures storeOk streamOk (freshSess dg) 11).connEntry = false
    ∧ (applyFailures storeOk streamOk (freshSess dg) 11).statusEntry = false
    ∧ (applyFailures storeOk streamOk (freshSess dg) 11).keepAlive = false
    ∧ (applyFailures storeOk streamOk (freshSess dg) 11).heartbeat = false
    ∧ (applyFailures storeOk streamOk (freshSess dg) 11).autoClose = false
    ∧ (applyFailures storeOk streamOk (freshSess dg) 11).reconnectScheduled = false
    ∧ (applyFailures storeOk streamOk (freshSess dg) 11).flushCalls
        = (if dg.buffer.isSome then 1 else 0) := by
  have h1 : handleConnectionFailure (freshSess dg) false storeOk streamOk
      = ⟨1, true, true, false, false, false, dg, 0, false, true⟩ := rfl
  have h10 : applyFailures storeOk streamOk (freshSess dg) 10
      = ⟨10, true, true, false, false, false, dg, 0, false, true⟩ := by
    rw [show (10 : ℕ) = 9 + 1 from rfl, applyFailures_succ, h1,
      applyFailures_mid dg storeOk streamOk 9 1 (by omega) (by omega)]
  have h11 : applyFailures storeOk streamOk (freshSess dg) 11
      = handleConnectionFailure
          ⟨10, true, true, false, false, false, dg, 0, false, true⟩ false
          storeOk streamOk := by
    rw [show (11 : ℕ) = 10 + 1 from rfl, applyFailures_last storeOk streamOk 10
      (freshSess dg), h10]
  rw [h10, h11]
  obtain ⟨buf, cs⟩ := dg
  cases buf with
  | none => exact ⟨rfl, rfl, rfl, rfl, rfl, rfl, rfl, rfl, rfl, rfl⟩
  | some b => exact ⟨rfl, rfl, rfl, rfl, rfl, rfl, rfl, rfl, rfl, rfl⟩

lemma acceptTranscript_accepted (st : ClientSt) (t : Str)
    (h1 : t ≠ [] ∧ trimStr t ≠ [])
    (h2 : isDuplicateTranscription st.lastTranscriptionAdded
        st.recentTranscripts t = false) :
    acceptTranscript st t
      = { st with
          transcriptionBuffer := st.transcriptionBuffer ++ [t],
          lastTranscriptionAdded := t,
          recentTranscripts :=
            if (st.recentTranscripts ++ [t]).length > 10
            then (st.recentTranscripts ++ [t]).drop 1
            else st.recentTranscripts ++ [t],
          segmentsProcessed := st.segmentsProcessed + 1 } := by
  unfold acceptTranscript
  rw [if_pos h1]
  rw [if_neg (by rw [h2]; exact Bool.false_ne_true)]

lemma acceptTranscript_dup_buffer (st : ClientSt) (t : Str)
    (hd : isDuplicateTranscription st.lastTranscriptionAdded
        st.recentTranscripts t = true) :
    (acceptTranscript st t).transcriptionBuffer = st.transcriptionBuffer := by
  unfold acceptTranscript
  by_cases h : t ≠ [] ∧ trimStr t ≠ []
  · rw [if_pos h, if_pos hd]
  · rw [if_neg h]

/-- C2: once a fragment `t1` has been accepted, a consecutive fragment `t2`
whose similarity to `t1` exceeds the 0.85 duplicate threshold is detected by
the comparison against the last accepted fragment and the recent-fragment
window, and is discarded: the transcription buffer after `t2` equals the
buffer after `t1` alone, so the space-joined flushed text is unchanged —
`t2` never appears in any flushed text. -/
theorem c2_duplicate_discarded (st : ClientSt) (t1 t2 : Str)
    (h1 : t1 ≠ [] ∧ trimStr t1 ≠ [])
    (hacc : isDuplicateTranscription st.lastTranscriptionAdded
        st.recentTranscripts t1 = false)
    (hsim : levSimilarity t2 t1 > 0.85) :
    (acceptTranscript st t1).transcriptionBuffer
        = st.transcriptionBuffer ++ [t1]
    ∧ isDuplicateTranscription (acceptTranscript st t1).lastTranscriptionAdded
        (acceptTranscript st t1).recentTranscripts t2 = true
    ∧ (acceptTranscript (acceptTranscript st t1) t2).transcriptionBuffer
        = (acceptTranscript st t1).transcriptionBuffer
    ∧ (processClientBuffered (acceptTranscript (acceptTranscript st t1) t2)
          true).2.1
        = (processClientBuffered (acceptTranscript st t1) true).2.1 := by
  have hst1 := acceptTranscript_accepted st t1 h1 hacc
  have hlast : (acceptTranscript st t1).lastTranscriptionAdded = t1 := by
    rw [hst1]
  have hdup : isDuplicateTranscription
      (acceptTranscript st t1).lastTranscriptionAdded
      (acceptTranscript st t1).recentTranscripts t2 = true := by
    rw [hlast]
    unfold isDuplicateTranscription
    by_cases ht2 : t2 = []
    · rw [if_pos ht2]
    · rw [if_neg ht2, if_pos ⟨h1.1, hsim⟩]
  have hbuf := acceptTranscript_dup_buffer (acceptTranscript st t1) t2 hdup
  refine ⟨by rw [hst1], hdup, hbuf, ?_⟩
  unfold processClientBuffered
  rw [hbuf]
  by_cases hb : (acceptTranscript st t1).transcriptionBuffer = []
  · rw [if_pos hb]
    rw [if_pos hb]
  · rw [if_neg hb]
    rw [if_neg hb]
    rfl

set_option maxRecDepth 8000 in
lemma levSimilarity_hello_there :
    levSimilarity ("hello there".data) ("hello there".data) > 0.85 := by
  have hl : levenshteinDistance (lowerStr ("hello there".data))
      (lowerStr ("hello there".data)) = 0 := by decide
  have hlen : (lowerStr ("hello there".data)).length = 11 := by decide
  simp only [levSimilarity, hl, hlen]
  norm_num

/-- C2 witness: the spec's own scenario — `"hello there"` re-emitted as an
exact duplicate into a fresh client state. -/
theorem c2_witness :
    ((("hello there".data : Str) ≠ [] ∧ trimStr ("hello there".data) ≠ [])
      ∧ isDuplicateTranscription (ClientSt.init 0).lastTranscriptionAdded
          (ClientSt.init 0).recentTranscripts ("hello there".data) = false
      ∧ levSimilarity ("hello there".data) ("hello there".data) > 0.85)
    ∧ ((acceptTranscript (ClientSt.init 0) ("hello there".data)).transcriptionBuffer
          = (ClientSt.init 0).transcriptionBuffer ++ [("hello there".data)]
        ∧ isDuplicateTranscription
            (acceptTranscript (ClientSt.init 0)
              ("hello there".data)).lastTranscriptionAdded
            (acceptTranscript (ClientSt.init 0)
              ("hello there".data)).recentTranscripts ("hello there".data) = true
        ∧ (acceptTranscript
              (acceptTranscript (ClientSt.init 0) ("hello there".data))
              ("hello there".data)).transcriptionBuffer
            = (acceptTranscript (ClientSt.init 0)
                ("hello there".data)).transcriptionBuffer
        ∧ (processClientBuffered
              (acceptTranscript
                (acceptTranscript (ClientSt.init 0) ("hello there".data))
                ("hello there".data)) true).2.1
            = (processClientBuffered
                (acceptTranscript (ClientSt.init 0) ("hello there".data))
                true).2.1) :=
  ⟨⟨⟨by decide, by decide⟩, by decide, levSimilarity_hello_there⟩,
    c2_duplicate_discarded (ClientSt.init 0) ("hello there".data)
      ("hello there".data) ⟨by decide, by decide⟩ (by decide)
      levSimilarity_hello_there⟩

lemma bufferAppend_nonempty (b : Str) (hb : b ≠ []) (cs : Option ℕ) (f : Frag) :
    bufferAppend ⟨some b, cs⟩ f.text f.speaker
      = ⟨some (b ++ specChunk cs f), updateLast cs f.speaker⟩ := by
  obtain ⟨t, sp⟩ := f
  cases sp with
  | none => simp [bufferAppend, specChunk, updateLast, hb]
  | some s =>
      by_cases hcs : cs = some s
      · simp [bufferAppend, specChunk, updateLast, hb, hcs]
      · simp [bufferAppend, specChunk, updateLast, hb, hcs]

lemma bufferAppend_fresh (f : Frag) :
    bufferAppend ⟨none, none⟩ f.text f.speaker
      = ⟨some (specFirst f), updateLast none f.speaker⟩ := by
  obtain ⟨t, sp⟩ := f
  cases sp <;> simp [bufferAppend, specFirst, updateLast]

lemma specFirst_ne_nil (f : Frag) (h : f.text ≠ []) : specFirst f ≠ [] := by
  obtain ⟨t, sp⟩ := f
  cases sp with
  | none => simpa [specFirst] using h
  | some s =>
      simp only [specFirst, ne_eq, List.append_eq_nil]
      rintro ⟨-, h2⟩
      exact h h2

lemma bufferFold_nonempty (frags : List Frag) :
    ∀ b : Str, b ≠ [] → ∀ cs : Option ℕ,
      bufferFold frags ⟨some b, cs⟩
        = ⟨some (b ++ renderRest cs frags),
            frags.foldl (fun l f => updateLast l f.speaker) cs⟩ := by
  induction frags with
  | nil =>
      intro b hb cs
      simp [bufferFold, renderRest]
  | cons f rest ih =>
      intro b hb cs
      show bufferFold rest (bufferAppend ⟨some b, cs⟩ f.text f.speaker) = _
      rw [bufferAppend_nonempty b hb cs f]
      rw [ih (b ++ specChunk cs f) (by simp [hb]) (updateLast cs f.speaker)]
      simp [renderRest]

/-- C1: folding an arrival-ordered sequence of non-empty final fragments into
a fresh session buffer renders exactly the speaker-annotated concatenation
(`renderSpec`): a `Speaker N: ` prefix on the first labelled fragment, a
paragraph-break separator plus prefix where the speaker differs from the
last-known speaker, a single space otherwise; and every successful flush
emits exactly the buffer's rendered text and leaves the buffer empty. -/
theorem c1_rendered_concatenation (frags : List Frag)
    (h : ∀ f ∈ frags, f.text ≠ []) :
    (bufferFold frags ⟨none, none⟩).buffer.getD [] = renderSpec frags
    ∧ (∀ (st : DGState) (storeOk streamOk : Bool) (b : Str),
        (processBufferedTranscription st storeOk streamOk).emitted = some b →
          b = st.buffer.getD []
          ∧ (processBufferedTranscription st storeOk
              streamOk).newState.buffer = none) := by
  constructor
  · cases frags with
    | nil => rfl
    | cons f rest =>
        have hf : f.text ≠ [] := h f (by simp)
        show (bufferFold rest
            (bufferAppend ⟨none, none⟩ f.text f.speaker)).buffer.getD []
          = renderSpec (f :: rest)
        rw [bufferAppend_fresh f]
        rw [bufferFold_nonempty rest (specFirst f) (specFirst_ne_nil f hf)
          (updateLast none f.speaker)]
        simp [renderSpec]
  · intro st storeOk streamOk b hemit
    obtain ⟨buf, cs⟩ := st
    cases buf with
    | none => simp [processBufferedTranscription] at hemit
    | some bb =>
        by_cases htr : trimStr bb = []
        · simp [processBufferedTranscription, htr] at hemit
        · cases storeOk with
          | false => simp [processBufferedTranscription, htr] at hemit
          | true =>
              simp only [processBufferedTranscription, if_neg htr,
                if_pos rfl] at hemit
              cases hemit
              refine ⟨rfl, ?_⟩
              simp [processBufferedTranscription, htr]

/-- C1 witness: two labelled fragments from distinct speakers. -/
theorem c1_witness :
    (∀ f ∈ [Frag.mk ("hello".data) (some 0), Frag.mk ("hi".data) (some 1)],
        f.text ≠ [])
    ∧ ((bufferFold [Frag.mk ("hello".data) (some 0),
            Frag.mk ("hi".data) (some 1)] ⟨none, none⟩).buffer.getD []
          = renderSpec [Frag.mk ("hello".data) (some 0),
              Frag.mk ("hi".data) (some 1)]
        ∧ (∀ (st : DGState) (storeOk streamOk : Bool) (b : Str),
            (processBufferedTranscription st storeOk streamOk).emitted
                = some b →
              b = st.buffer.getD []
              ∧ (processBufferedTranscription st storeOk
                  streamOk).newState.buffer = none)) :=
  ⟨by decide,
    c1_rendered_concatenation
      [Frag.mk ("hello".data) (some 0), Frag.mk ("hi".data) (some 1)]
      (by decide)⟩

/-- C2 counterexample: the deepgramService streaming accumulator
(`bufferTranscription`) performs no duplicate comparison — an exact
re-emission of `"hello there"` (similarity 1 > 0.85) is appended to the
transcription buffer anyway and appears twice in the text a successful
flush emits. -/
theorem c2_counterexample :
    levSimilarity ("hello there".data) ("hello there".data) > 0.85
    ∧ (bufferFold [Frag.mk ("hello there".data) (some 0),
          Frag.mk ("hello there".data) (some 0)] ⟨none, none⟩).buffer.getD []
        = ("Speaker 0: hello there hello there".data)
    ∧ (processBufferedTranscription
          (bufferFold [Frag.mk ("hello there".data) (some 0),
            Frag.mk ("hello there".data) (some 0)] ⟨none, none⟩) true
          true).emitted
        = some ("Speaker 0: hello there hello there".data) :=
  ⟨levSimilarity_hello_there, by decide, by decide⟩
